import Mathlib

/-!
Verification of the Sharecart1000 codec (`src/lib.rs`).

The Rust crate converts between an in-memory `Sharecart` record and the
`o_o.ini` text representation.  We embed the record type, the field decode
rules of `Sharecart::from_str`, and the encoder `Sharecart::to_string`
as executable Lean definitions, model the external INI section parser
from the design spec, and prove the specified properties.
-/

set_option maxRecDepth 10000

/-- The Sharecart record (struct `Sharecart` in the source).  `map_x`,
`map_y` and the `misc` entries are Rust `u16` values, embedded as `Nat`;
`misc` and `switch` are the fixed arrays `[u16; 4]` and `[bool; 8]`,
embedded as lists (length 4 and 8 by construction everywhere below). -/
@[ext]
structure Sharecart where
  map_x : Nat
  map_y : Nat
  misc : List Nat
  player_name : String
  switch : List Bool
deriving DecidableEq, Repr

/-- The `Default` instance of the source: all-zero, empty name, all-false. -/
def Sharecart.default : Sharecart :=
  { map_x := 0, map_y := 0, misc := [0, 0, 0, 0], player_name := ""
  , switch := [false, false, false, false, false, false, false, false] }

/-- UTF-8 encoding of a single character (the byte sequence Rust's
`str::bytes` yields for it), bytes as `Nat`. -/
def utf8EncodeChar (c : Char) : List Nat :=
  let n := c.toNat
  if n < 128 then [n]
  else if n < 2048 then [192 + n / 64, 128 + n % 64]
  else if n < 65536 then [224 + n / 4096, 128 + (n / 64) % 64, 128 + n % 64]
  else [240 + n / 262144, 128 + (n / 4096) % 64, 128 + (n / 64) % 64, 128 + n % 64]

/-- The UTF-8 byte sequence of a character list (Rust `str::bytes`). -/
def listBytes (l : List Char) : List Nat :=
  (l.map utf8EncodeChar).flatten

/-- The UTF-8 byte sequence of a string (Rust `str::bytes`). -/
def strBytes (s : String) : List Nat :=
  listBytes s.data

/-- The replacement character U+FFFD produced by lossy UTF-8 repair. -/
def replChar : Char := '�'

/-- Is the byte a UTF-8 continuation byte `0x80..=0xBF`? -/
def isCont (b : Nat) : Bool := 128 ≤ b && b ≤ 191

/-- Valid second byte of a three-byte sequence headed by `b0`
(excludes overlong encodings and surrogates, as Rust's validator does). -/
def cont3ok (b0 b1 : Nat) : Bool :=
  if b0 = 224 then 160 ≤ b1 && b1 ≤ 191
  else if b0 = 237 then 128 ≤ b1 && b1 ≤ 159
  else isCont b1

/-- Valid second byte of a four-byte sequence headed by `b0`
(excludes overlong encodings and codepoints beyond U+10FFFF). -/
def cont4ok (b0 b1 : Nat) : Bool :=
  if b0 = 240 then 144 ≤ b1 && b1 ≤ 191
  else if b0 = 244 then 128 ≤ b1 && b1 ≤ 143
  else isCont b1

/-- Fuel-indexed lossy UTF-8 decoding (Rust `String::from_utf8_lossy`):
each maximal valid sequence becomes its character, each maximal invalid
prefix becomes one U+FFFD.  One unit of fuel is spent per emitted
character, so `fuel ≥ length` always suffices. -/
def utf8DecodeLossyF : Nat → List Nat → List Char
  | 0, _ => []
  | _ + 1, [] => []
  | f + 1, b0 :: rest =>
    if b0 < 128 then
      Char.ofNat b0 :: utf8DecodeLossyF f rest
    else if 194 ≤ b0 && b0 ≤ 223 then
      match rest with
      | [] => [replChar]
      | b1 :: r2 =>
        if isCont b1 then
          Char.ofNat ((b0 - 192) * 64 + (b1 - 128)) :: utf8DecodeLossyF f r2
        else replChar :: utf8DecodeLossyF f rest
    else if 224 ≤ b0 && b0 ≤ 239 then
      match rest with
      | [] => [replChar]
      | b1 :: r2 =>
        if cont3ok b0 b1 then
          match r2 with
          | [] => [replChar]
          | b2 :: r3 =>
            if isCont b2 then
              Char.ofNat ((b0 - 224) * 4096 + (b1 - 128) * 64 + (b2 - 128)) ::
                utf8DecodeLossyF f r3
            else replChar :: utf8DecodeLossyF f r2
        else replChar :: utf8DecodeLossyF f rest
    else if 240 ≤ b0 && b0 ≤ 244 then
      match rest with
      | [] => [replChar]
      | b1 :: r2 =>
        if cont4ok b0 b1 then
          match r2 with
          | [] => [replChar]
          | b2 :: r3 =>
            if isCont b2 then
              match r3 with
              | [] => [replChar]
              | b3 :: r4 =>
                if isCont b3 then
                  Char.ofNat ((b0 - 240) * 262144 + (b1 - 128) * 4096 +
                      (b2 - 128) * 64 + (b3 - 128)) :: utf8DecodeLossyF f r4
                else replChar :: utf8DecodeLossyF f r3
            else replChar :: utf8DecodeLossyF f r2
        else replChar :: utf8DecodeLossyF f rest
    else replChar :: utf8DecodeLossyF f rest

/-- Lossy UTF-8 decoding of a byte list (Rust `String::from_utf8_lossy`). -/
def utf8DecodeLossy (l : List Nat) : List Char :=
  utf8DecodeLossyF l.length l

/-- Rust `v.parse::<u16>()`: an optional leading plus sign, then one or
more decimal digits, value below 2^16; anything else is a parse error. -/
def parseU16 (v : List Char) : Option Nat :=
  let t := if v.head? = some '+' then v.tail else v
  if t ≠ [] ∧ t.all (fun c => c.isDigit) then
    let n := t.foldl (fun a c => a * 10 + (c.toNat - 48)) 0
    if n < 65536 then some n else none
  else none

/-- Fuel-indexed decimal rendering of a natural number, most significant
digit first (Rust's `Display` for unsigned integers). -/
def natToDecF : Nat → Nat → List Char
  | 0, _ => []
  | f + 1, n =>
    if n < 10 then [Char.ofNat (48 + n)]
    else natToDecF f (n / 10) ++ [Char.ofNat (48 + n % 10)]

/-- Decimal rendering of a natural number (Rust `format!` of a `u16`). -/
def natToDec (n : Nat) : List Char := natToDecF (n + 1) n

/-- The `PlayerName` decode rule of `Sharecart::from_str` (source lines
124-128): collect the first 1024 bytes of the raw value, lossily repair
as UTF-8, and keep every character except U+FFFD, carriage return and
line feed. -/
def decodeName (v : List Char) : String :=
  String.mk ((utf8DecodeLossy ((listBytes v).take 1024)).filter
    (fun c => c != replChar && c != '\r' && c != '\n'))

/-- Rust `str::to_lowercase` restricted to the basic latin letters that
occur in the key and value material the codec compares (the Unicode and
ASCII lowercasings agree on every string compared against a field key or
the literal text of `true` below). -/
def lowerStr (l : List Char) : List Char := l.map Char.toLower

/-- The field decode rule applied to one `(key, value)` pair of the Main
section: the body of the `for (k, v)` loop of `Sharecart::from_str`,
lines 102-155 of the source. -/
def applyPair (sc : Sharecart) (k v : List Char) : Sharecart :=
  if lowerStr k = ("mapx").data then
    { sc with map_x := (parseU16 v).getD 0 % 1024 }
  else if lowerStr k = ("mapy").data then
    { sc with map_y := (parseU16 v).getD 0 % 1024 }
  else if lowerStr k = ("misc0").data then
    { sc with misc := sc.misc.set 0 ((parseU16 v).getD 0) }
  else if lowerStr k = ("misc1").data then
    { sc with misc := sc.misc.set 1 ((parseU16 v).getD 0) }
  else if lowerStr k = ("misc2").data then
    { sc with misc := sc.misc.set 2 ((parseU16 v).getD 0) }
  else if lowerStr k = ("misc3").data then
    { sc with misc := sc.misc.set 3 ((parseU16 v).getD 0) }
  else if lowerStr k = ("playername").data then
    { sc with player_name := decodeName v }
  else if lowerStr k = ("switch0").data then
    { sc with switch := sc.switch.set 0 (lowerStr v = ("true").data) }
  else if lowerStr k = ("switch1").data then
    { sc with switch := sc.switch.set 1 (lowerStr v = ("true").data) }
  else if lowerStr k = ("switch2").data then
    { sc with switch := sc.switch.set 2 (lowerStr v = ("true").data) }
  else if lowerStr k = ("switch3").data then
    { sc with switch := sc.switch.set 3 (lowerStr v = ("true").data) }
  else if lowerStr k = ("switch4").data then
    { sc with switch := sc.switch.set 4 (lowerStr v = ("true").data) }
  else if lowerStr k = ("switch5").data then
    { sc with switch := sc.switch.set 5 (lowerStr v = ("true").data) }
  else if lowerStr k = ("switch6").data then
    { sc with switch := sc.switch.set 6 (lowerStr v = ("true").data) }
  else if lowerStr k = ("switch7").data then
    { sc with switch := sc.switch.set 7 (lowerStr v = ("true").data) }
  else sc

/-- Decoding the located Main section: fold the per-pair rule over the
section's pairs in order, starting from the default record. -/
def decodeProps (props : List (List Char × List Char)) : Sharecart :=
  props.foldl (fun sc p => applyPair sc p.1 p.2) Sharecart.default

/-- Splitting text into lines at each line-feed character. -/
def splitLines : List Char → List (List Char)
  | [] => [[]]
  | c :: r =>
    match splitLines r with
    | [] => [[c]]
    | l :: ls => if c = '\n' then [] :: l :: ls else (c :: l) :: ls

/-- Modelled from the spec: a line `[Name]` recognised as a section
header by the external Section Parser (crate `ini`, not part of this
repository). -/
def headerName : List Char → Option (List Char)
  | '[' :: rest => if rest.getLast? = some ']' then some rest.dropLast else none
  | _ => none

/-- Modelled from the spec: a `key=value` line as split by the external
Section Parser — the key is everything before the first equals sign, the
raw value everything after it. -/
def splitEq (line : List Char) : Option (List Char × List Char) :=
  if '=' ∈ line then
    some (line.takeWhile (fun c => c != '='), (line.dropWhile (fun c => c != '=')).tail)
  else none

/-- Prepend the section being accumulated (if any) to the finished list
of sections. -/
def flushSec (cur : Option (List Char)) (pairs : List (List Char × List Char))
    (secs : List (List Char × List (List Char × List Char))) :
    List (List Char × List (List Char × List Char)) :=
  match cur with
  | none => secs
  | some n => (n, pairs) :: secs

/-- Modelled from the spec: the line loop of the external Section Parser.
Empty lines are skipped, a header line starts a new section, a
`key=value` line extends the current section, and any other non-empty
line is a document-level syntax error (`none`).  Pairs seen before any
header belong to no named section and are unreachable from a named
lookup. -/
def parseLinesAux : Option (List Char) → List (List Char × List Char) →
    List (List Char) → Option (List (List Char × List (List Char × List Char)))
  | cur, pairs, [] => some (flushSec cur pairs [])
  | cur, pairs, line :: rest =>
    if line = [] then parseLinesAux cur pairs rest
    else
      match headerName line with
      | some name => (parseLinesAux (some name) [] rest).map (flushSec cur pairs)
      | none =>
        match splitEq line with
        | some p => parseLinesAux cur (pairs ++ [p]) rest
        | none => none

/-- Modelled from the spec: the external Section Parser
(`ini::Ini::load_from_str`) — raw text to an ordered list of sections,
each an ordered list of raw `key=value` pairs, or a syntax error. -/
def parseIni (text : List Char) :
    Option (List (List Char × List (List Char × List Char))) :=
  parseLinesAux none [] (splitLines text)

/-- First section with the given name (rust-ini `Ini::section`). -/
def lookupSec (secs : List (List Char × List (List Char × List Char)))
    (name : List Char) : Option (List (List Char × List Char)) :=
  match secs with
  | [] => none
  | (n, ps) :: r => if n = name then some ps else lookupSec r name

/-- `Sharecart::from_str`: parse the text, locate the section named
`Main` (or, failing that, `main`), and fold the field rules over its
pairs; on a syntax error or a missing section, the default record. -/
def Sharecart.from_str (s : String) : Sharecart :=
  match parseIni s.data with
  | none => Sharecart.default
  | some secs =>
    match (lookupSec secs (("Main").data)).orElse
        (fun _ => lookupSec secs (("main").data)) with
    | some props => decodeProps props
    | none => Sharecart.default

/-- The `PlayerName` sanitization loop of `Sharecart::to_string`
(source lines 205-211): take the first 1023 bytes of the name, lossily
repair as UTF-8, and push every character except U+FFFD, carriage
return and line feed. -/
def sanitizeName (s : String) : List Char :=
  (utf8DecodeLossy ((strBytes s).take 1023)).foldl
    (fun acc ch => if ch == replChar || ch == '\r' || ch == '\n' then acc else acc ++ [ch])
    []

/-- The uppercase boolean token written for a switch. -/
def boolTok (b : Bool) : List Char :=
  if b then ("TRUE").data else ("FALSE").data

/-- One emitted `Key=Value` line followed by the rest of the output:
the `s.push_str(..)` steps of the source always end a field line with a
single line feed. -/
def lineKV (k v rest : List Char) : List Char := (k ++ v) ++ '\n' :: rest

/-- `Sharecart::to_string`: the fixed-order, LF-separated `[Main]`
section (the source's two `for` loops over `misc` and `switch` are
unrolled in index order). -/
def Sharecart.to_string (sc : Sharecart) : String :=
  String.mk (
    ("[Main]").data ++ '\n' ::
    lineKV (("MapX=").data) (natToDec (sc.map_x % 1024)) (
    lineKV (("MapY=").data) (natToDec (sc.map_y % 1024)) (
    lineKV (("Misc0=").data) (natToDec (sc.misc.getD 0 0)) (
    lineKV (("Misc1=").data) (natToDec (sc.misc.getD 1 0)) (
    lineKV (("Misc2=").data) (natToDec (sc.misc.getD 2 0)) (
    lineKV (("Misc3=").data) (natToDec (sc.misc.getD 3 0)) (
    lineKV (("PlayerName=").data) (sanitizeName sc.player_name) (
    lineKV (("Switch0=").data) (boolTok (sc.switch.getD 0 false)) (
    lineKV (("Switch1=").data) (boolTok (sc.switch.getD 1 false)) (
    lineKV (("Switch2=").data) (boolTok (sc.switch.getD 2 false)) (
    lineKV (("Switch3=").data) (boolTok (sc.switch.getD 3 false)) (
    lineKV (("Switch4=").data) (boolTok (sc.switch.getD 4 false)) (
    lineKV (("Switch5=").data) (boolTok (sc.switch.getD 5 false)) (
    lineKV (("Switch6=").data) (boolTok (sc.switch.getD 6 false)) (
    lineKV (("Switch7=").data) (boolTok (sc.switch.getD 7 false)) (
    []))))))))))))))))

/-- The key/value pairs of the Main section of an encoded record, in
emitted order. -/
def mainPairs (sc : Sharecart) : List (List Char × List Char) :=
  [ (("MapX").data, natToDec (sc.map_x % 1024))
  , (("MapY").data, natToDec (sc.map_y % 1024))
  , (("Misc0").data, natToDec (sc.misc.getD 0 0))
  , (("Misc1").data, natToDec (sc.misc.getD 1 0))
  , (("Misc2").data, natToDec (sc.misc.getD 2 0))
  , (("Misc3").data, natToDec (sc.misc.getD 3 0))
  , (("PlayerName").data, sanitizeName sc.player_name)
  , (("Switch0").data, boolTok (sc.switch.getD 0 false))
  , (("Switch1").data, boolTok (sc.switch.getD 1 false))
  , (("Switch2").data, boolTok (sc.switch.getD 2 false))
  , (("Switch3").data, boolTok (sc.switch.getD 3 false))
  , (("Switch4").data, boolTok (sc.switch.getD 4 false))
  , (("Switch5").data, boolTok (sc.switch.getD 5 false))
  , (("Switch6").data, boolTok (sc.switch.getD 6 false))
  , (("Switch7").data, boolTok (sc.switch.getD 7 false)) ]

/-- Set to zero the numeric field selected by an already-lowercased key
(used to state that a failed numeric parse zeroes exactly that field,
leaving every other field alone). -/
def zeroAt (lower : List Char) (r : Sharecart) : Sharecart :=
  if lower = ("mapx").data then { r with map_x := 0 }
  else if lower = ("mapy").data then { r with map_y := 0 }
  else if lower = ("misc0").data then { r with misc := r.misc.set 0 0 }
  else if lower = ("misc1").data then { r with misc := r.misc.set 1 0 }
  else if lower = ("misc2").data then { r with misc := r.misc.set 2 0 }
  else if lower = ("misc3").data then { r with misc := r.misc.set 3 0 }
  else r

/-- The six keys whose decode rule parses an unsigned 16-bit integer. -/
def numKey (lower : List Char) : Prop :=
  lower = ("mapx").data ∨ lower = ("mapy").data ∨ lower = ("misc0").data ∨
    lower = ("misc1").data ∨ lower = ("misc2").data ∨ lower = ("misc3").data

/-- The `PlayerName` decode pipeline as the spec's words state it: first
1023 bytes of the raw value, lossy UTF-8 repair, then filter out U+FFFD,
carriage return and line feed.  (The code takes 1024 bytes instead.) -/
def specDecodeName (v : List Char) : List Char :=
  (utf8DecodeLossy ((listBytes v).take 1023)).filter
    (fun c => c != replChar && c != '\r' && c != '\n')

/-- The `PlayerName` encode sanitization as the claim states it: drop
every carriage-return and line-feed byte first, then take the first 1023
bytes, lossily repair, and drop replacement characters. -/
def specSanitizeName (s : String) : List Char :=
  (utf8DecodeLossy (((strBytes s).filter (fun b => !(b == 13 || b == 10))).take 1023)).filter
    (fun c => c != replChar)

/-- The `PlayerName` encode sanitization as the code performs it, in the
amended order: take the first 1023 bytes, lossily repair, then drop
U+FFFD, carriage return and line feed. -/
def amendedSanitizeName (s : String) : List Char :=
  (utf8DecodeLossy ((strBytes s).take 1023)).filter
    (fun c => !(c == replChar || c == '\r' || c == '\n'))

/-- A Main section whose PlayerName value is 1024 ASCII bytes. -/
def badDoc1024 : String :=
  String.mk (("[Main]\nPlayerName=").data ++ List.replicate 1024 'a')

/-- A name of 1024 bytes whose first byte is a line feed. -/
def newlineName1024 : String :=
  String.mk (List.cons '\n' (List.replicate 1023 'x'))

/-- The record whose encoding refutes the filter-before-truncate claim. -/
def cexCart : Sharecart := { Sharecart.default with player_name := newlineName1024 }

/-- A canonical example record (the one of the crate's doc-test). -/
def exampleCart : Sharecart :=
  { map_x := 73, map_y := 1023, misc := [54, 540, 999, 65535]
  , player_name := "Fearless Concurrency"
  , switch := [true, false, true, false, true, false, true, false] }

theorem char_toNat_bounds (c : Char) :
    c.toNat < 1114112 ∧ ¬(55296 ≤ c.toNat ∧ c.toNat ≤ 57343) := by
  have h := c.valid
  unfold UInt32.isValidChar Nat.isValidChar at h
  rcases h with h | ⟨h1, h2⟩
  · have : c.toNat < 55296 := by exact_mod_cast h
    exact ⟨by omega, by omega⟩
  · have g1 : (57343 : Nat) < c.toNat := by exact_mod_cast h1
    have g2 : c.toNat < 1114112 := by exact_mod_cast h2
    exact ⟨by omega, by omega⟩

theorem utf8DecodeLossyF_nil (f : Nat) : utf8DecodeLossyF f [] = [] := by
  cases f <;> rfl

theorem utf8Decode_encodeChar (f : Nat) (c : Char) (bs : List Nat) :
    utf8DecodeLossyF (f + 1) (utf8EncodeChar c ++ bs) = c :: utf8DecodeLossyF f bs := by
  obtain ⟨hlt, hsur⟩ := char_toNat_bounds c
  by_cases h1 : c.toNat < 128
  · simp only [utf8EncodeChar, if_pos h1, List.cons_append, List.nil_append,
      utf8DecodeLossyF, Char.ofNat_toNat]
  · by_cases h2 : c.toNat < 2048
    · simp only [utf8EncodeChar, if_neg h1, if_pos h2, List.cons_append, List.nil_append,
        utf8DecodeLossyF]
      rw [if_neg (by omega)]
      rw [if_pos (show (194 ≤ 192 + c.toNat / 64 && 192 + c.toNat / 64 ≤ 223) = true by
        simp only [Bool.and_eq_true, decide_eq_true_eq]; omega)]
      rw [if_pos (show isCont (128 + c.toNat % 64) = true by
        simp only [isCont, Bool.and_eq_true, decide_eq_true_eq]; omega)]
      have harg : (192 + c.toNat / 64 - 192) * 64 + (128 + c.toNat % 64 - 128) = c.toNat := by
        omega
      rw [harg, Char.ofNat_toNat]
    · by_cases h3 : c.toNat < 65536
      · simp only [utf8EncodeChar, if_neg h1, if_neg h2, if_pos h3, List.cons_append,
          List.nil_append, utf8DecodeLossyF]
        rw [if_neg (by omega)]
        rw [if_neg (by
          simp only [Bool.and_eq_true, decide_eq_true_eq, not_and]
          omega)]
        rw [if_pos (show (224 ≤ 224 + c.toNat / 4096 && 224 + c.toNat / 4096 ≤ 239) = true by
          simp only [Bool.and_eq_true, decide_eq_true_eq]; omega)]
        rw [if_pos (show cont3ok (224 + c.toNat / 4096) (128 + c.toNat / 64 % 64) = true by
          unfold cont3ok isCont
          split_ifs with he hd
          · simp only [Bool.and_eq_true, decide_eq_true_eq]
            omega
          · simp only [Bool.and_eq_true, decide_eq_true_eq]
            omega
          · simp only [Bool.and_eq_true, decide_eq_true_eq]
            omega)]
        rw [if_pos (show isCont (128 + c.toNat % 64) = true by
          simp only [isCont, Bool.and_eq_true, decide_eq_true_eq]; omega)]
        have harg : (224 + c.toNat / 4096 - 224) * 4096 + (128 + c.toNat / 64 % 64 - 128) * 64 +
            (128 + c.toNat % 64 - 128) = c.toNat := by omega
        rw [harg, Char.ofNat_toNat]
      · simp only [utf8EncodeChar, if_neg h1, if_neg h2, if_neg h3, List.cons_append,
          List.nil_append, utf8DecodeLossyF]
        rw [if_neg (by omega)]
        rw [if_neg (by
          simp only [Bool.and_eq_true, decide_eq_true_eq, not_and]
          omega)]
        rw [if_neg (by
          simp only [Bool.and_eq_true, decide_eq_true_eq, not_and]
          omega)]
        rw [if_pos (show (240 ≤ 240 + c.toNat / 262144 && 240 + c.toNat / 262144 ≤ 244) = true by
          simp only [Bool.and_eq_true, decide_eq_true_eq]; omega)]
        rw [if_pos (show cont4ok (240 + c.toNat / 262144) (128 + c.toNat / 4096 % 64) = true by
          unfold cont4ok isCont
          split_ifs with he hd
          · simp only [Bool.and_eq_true, decide_eq_true_eq]
            omega
          · simp only [Bool.and_eq_true, decide_eq_true_eq]
            omega
          · simp only [Bool.and_eq_true, decide_eq_true_eq]
            omega)]
        rw [if_pos (show isCont (128 + c.toNat / 64 % 64) = true by
          simp only [isCont, Bool.and_eq_true, decide_eq_true_eq]; omega)]
        rw [if_pos (show isCont (128 + c.toNat % 64) = true by
          simp only [isCont, Bool.and_eq_true, decide_eq_true_eq]; omega)]
        have harg : (240 + c.toNat / 262144 - 240) * 262144 +
            (128 + c.toNat / 4096 % 64 - 128) * 4096 +
            (128 + c.toNat / 64 % 64 - 128) * 64 + (128 + c.toNat % 64 - 128) = c.toNat := by
          omega
        rw [harg, Char.ofNat_toNat]

theorem listBytes_nil : listBytes [] = [] := rfl

theorem listBytes_cons (c : Char) (cs : List Char) :
    listBytes (c :: cs) = utf8EncodeChar c ++ listBytes cs := by
  simp [listBytes]

theorem one_le_length_utf8EncodeChar (c : Char) : 1 ≤ (utf8EncodeChar c).length := by
  simp only [utf8EncodeChar]
  split_ifs <;> simp

theorem length_le_length_listBytes (l : List Char) : l.length ≤ (listBytes l).length := by
  induction l with
  | nil => simp [listBytes]
  | cons c cs ih =>
    rw [listBytes_cons]
    have := one_le_length_utf8EncodeChar c
    simp only [List.length_cons, List.length_append]
    omega

theorem utf8Decode_listBytes_fuel (cs : List Char) (f : Nat) :
    utf8DecodeLossyF (cs.length + f) (listBytes cs) = cs := by
  induction cs generalizing f with
  | nil => simp [listBytes, utf8DecodeLossyF_nil]
  | cons c cs ih =>
    rw [listBytes_cons]
    have hstep : cs.length + 1 + f = (cs.length + f) + 1 := by omega
    simp only [List.length_cons, hstep, utf8Decode_encodeChar, ih]

theorem utf8DecodeLossy_listBytes (cs : List Char) :
    utf8DecodeLossy (listBytes cs) = cs := by
  unfold utf8DecodeLossy
  have h := length_le_length_listBytes cs
  have : (listBytes cs).length = cs.length + ((listBytes cs).length - cs.length) := by omega
  rw [this, utf8Decode_listBytes_fuel]

theorem digitChar_facts (d : Nat) (h : d < 10) :
    (Char.ofNat (48 + d)).isDigit = true ∧ (Char.ofNat (48 + d)).toNat = 48 + d := by
  interval_cases d <;> exact ⟨by decide, by decide⟩

theorem isDigit_ne (c : Char) (h : c.isDigit = true) :
    c ≠ '+' ∧ c ≠ '\n' ∧ c ≠ '=' ∧ c ≠ '[' := by
  refine ⟨?_, ?_, ?_, ?_⟩ <;> rintro rfl <;> exact absurd h (by decide)

theorem natToDecF_facts (f : Nat) : ∀ n, n < f →
    natToDecF f n ≠ [] ∧ (∀ c ∈ natToDecF f n, c.isDigit = true) ∧
    (natToDecF f n).foldl (fun a c => a * 10 + (c.toNat - 48)) 0 = n := by
  induction f with
  | zero => intro n h; omega
  | succ f ih =>
    intro n h
    by_cases h10 : n < 10
    · obtain ⟨hdig, htn⟩ := digitChar_facts n h10
      simp only [natToDecF, if_pos h10]
      refine ⟨by simp, ?_, ?_⟩
      · intro c hc
        simp only [List.mem_singleton] at hc
        rw [hc]
        exact hdig
      · simp [htn]
    · have hdiv : n / 10 < f := by omega
      obtain ⟨hne, hdigs, hval⟩ := ih (n / 10) hdiv
      obtain ⟨hdig, htn⟩ := digitChar_facts (n % 10) (by omega)
      simp only [natToDecF, if_neg h10]
      refine ⟨by simp, ?_, ?_⟩
      · intro c hc
        rcases List.mem_append.mp hc with hm | hm
        · exact hdigs c hm
        · simp only [List.mem_singleton] at hm
          rw [hm]
          exact hdig
      · rw [List.foldl_append, hval]
        simp only [List.foldl_cons, List.foldl_nil, htn]
        omega

theorem natToDec_facts (n : Nat) :
    natToDec n ≠ [] ∧ (∀ c ∈ natToDec n, c.isDigit = true) ∧
    (natToDec n).foldl (fun a c => a * 10 + (c.toNat - 48)) 0 = n :=
  natToDecF_facts (n + 1) n (by omega)

theorem newline_notin_natToDec (n : Nat) : '\n' ∉ natToDec n := by
  intro hm
  have h := (natToDec_facts n).2.1 '\n' hm
  exact absurd h (by decide)

theorem parseU16_natToDec (n : Nat) (h : n < 65536) : parseU16 (natToDec n) = some n := by
  obtain ⟨hne, hdig, hval⟩ := natToDec_facts n
  have hhead : ¬((natToDec n).head? = some '+') := by
    cases hd : natToDec n with
    | nil => simp
    | cons c cs =>
      simp only [List.head?, Option.some.injEq]
      intro hc
      have hcd : c.isDigit = true := hdig c (by rw [hd]; exact List.mem_cons_self c cs)
      exact (isDigit_ne c hcd).1 hc
  have hall : (natToDec n).all (fun c => c.isDigit) = true := by
    rw [List.all_eq_true]
    exact hdig
  unfold parseU16
  rw [if_neg hhead, if_pos ⟨hne, hall⟩, hval, if_pos h]

theorem splitLines_ne_nil (l : List Char) : splitLines l ≠ [] := by
  induction l with
  | nil => simp [splitLines]
  | cons c r ih =>
    simp only [splitLines]
    cases h : splitLines r with
    | nil => simp
    | cons a as => split_ifs <;> simp

theorem splitLines_append_cons (xs r : List Char) (hx : '\n' ∉ xs) :
    splitLines (xs ++ '\n' :: r) = xs :: splitLines r := by
  induction xs with
  | nil =>
    simp only [List.nil_append, splitLines]
    cases h : splitLines r with
    | nil => exact absurd h (splitLines_ne_nil r)
    | cons a as => simp
  | cons c cs ih =>
    have hc : c ≠ '\n' := fun hc => hx (by rw [hc]; exact List.mem_cons_self '\n' cs)
    have hcs : '\n' ∉ cs := fun hm => hx (List.mem_cons_of_mem c hm)
    simp only [List.cons_append, splitLines, List.append_eq, ih hcs]
    rw [if_neg hc]

theorem splitLines_no_newline (xs : List Char) (hx : '\n' ∉ xs) :
    splitLines xs = [xs] := by
  induction xs with
  | nil => rfl
  | cons c cs ih =>
    have hc : c ≠ '\n' := fun hc => hx (by rw [hc]; exact List.mem_cons_self '\n' cs)
    have hcs : '\n' ∉ cs := fun hm => hx (List.mem_cons_of_mem c hm)
    simp only [splitLines, ih hcs]
    rw [if_neg hc]

theorem splitLines_lineKV (k v rest : List Char) (hk : '\n' ∉ k) (hv : '\n' ∉ v) :
    splitLines (lineKV k v rest) = (k ++ v) :: splitLines rest := by
  unfold lineKV
  apply splitLines_append_cons
  intro hm
  rcases List.mem_append.mp hm with hm | hm
  · exact hk hm
  · exact hv hm

theorem takeWhile_eq_append (k v : List Char) (hk : '=' ∉ k) :
    (k ++ '=' :: v).takeWhile (fun c => c != '=') = k := by
  induction k with
  | nil =>
    rw [List.nil_append, List.takeWhile_cons_of_neg (by simp)]
  | cons c cs ih =>
    have hc : c ≠ '=' := fun h => hk (by rw [h]; exact List.mem_cons_self '=' cs)
    have hcs : '=' ∉ cs := fun hm => hk (List.mem_cons_of_mem c hm)
    rw [List.cons_append, List.takeWhile_cons_of_pos (by simp [hc]), ih hcs]

theorem dropWhile_eq_append (k v : List Char) (hk : '=' ∉ k) :
    (k ++ '=' :: v).dropWhile (fun c => c != '=') = '=' :: v := by
  induction k with
  | nil =>
    rw [List.nil_append, List.dropWhile_cons_of_neg (by simp)]
  | cons c cs ih =>
    have hc : c ≠ '=' := fun h => hk (by rw [h]; exact List.mem_cons_self '=' cs)
    have hcs : '=' ∉ cs := fun hm => hk (List.mem_cons_of_mem c hm)
    rw [List.cons_append, List.dropWhile_cons_of_pos (by simp [hc]), ih hcs]

theorem splitEq_keyval (k v : List Char) (hk : '=' ∉ k) :
    splitEq (k ++ '=' :: v) = some (k, v) := by
  unfold splitEq
  rw [if_pos (by simp), takeWhile_eq_append k v hk, dropWhile_eq_append k v hk]
  rfl

theorem headerName_cons (c : Char) (l : List Char) (hc : c ≠ '[') :
    headerName (c :: l) = none := by
  unfold headerName
  split
  · rename_i h
    rw [List.cons.injEq] at h
    exact absurd h.1 (by exact fun hh => hc hh)
  · rfl

theorem foldl_push_filter (p : Char → Bool) (l acc : List Char) :
    l.foldl (fun a ch => if p ch then a else a ++ [ch]) acc =
      acc ++ l.filter (fun ch => !(p ch)) := by
  induction l generalizing acc with
  | nil => simp
  | cons c cs ih =>
    simp only [List.foldl_cons, List.filter_cons]
    by_cases hp : p c = true
    · rw [if_pos hp, ih]
      simp [hp]
    · rw [if_neg hp, ih]
      simp only [Bool.not_eq_true] at hp
      simp [hp]

theorem sanitizeName_eq_filter (s : String) :
    sanitizeName s = (utf8DecodeLossy ((strBytes s).take 1023)).filter
      (fun c => !(c == replChar || c == '\r' || c == '\n')) := by
  unfold sanitizeName
  rw [foldl_push_filter]
  simp

theorem newline_notin_sanitizeName (s : String) : '\n' ∉ sanitizeName s := by
  rw [sanitizeName_eq_filter]
  intro hm
  have h := (List.mem_filter.mp hm).2
  simp at h

theorem newline_notin_boolTok (b : Bool) : '\n' ∉ boolTok b := by
  cases b <;> decide

theorem sanitizeName_canonical (s : String) (hlen : (strBytes s).length ≤ 1023)
    (hok : ∀ c ∈ s.data, c ≠ replChar ∧ c ≠ '\r' ∧ c ≠ '\n') :
    sanitizeName s = s.data := by
  rw [sanitizeName_eq_filter, List.take_of_length_le hlen]
  rw [show strBytes s = listBytes s.data from rfl, utf8DecodeLossy_listBytes]
  rw [List.filter_eq_self.mpr]
  intro c hc
  obtain ⟨h1, h2, h3⟩ := hok c hc
  simp [h1, h2, h3]

theorem decodeName_canonical (s : String) (hlen : (strBytes s).length ≤ 1024)
    (hok : ∀ c ∈ s.data, c ≠ replChar ∧ c ≠ '\r' ∧ c ≠ '\n') :
    decodeName s.data = s := by
  unfold decodeName
  rw [show listBytes s.data = strBytes s from rfl, List.take_of_length_le hlen]
  rw [show strBytes s = listBytes s.data from rfl, utf8DecodeLossy_listBytes]
  rw [List.filter_eq_self.mpr]
  intro c hc
  obtain ⟨h1, h2, h3⟩ := hok c hc
  simp [h1, h2, h3]

theorem parseIni_to_string (sc : Sharecart) :
    parseIni (Sharecart.to_string sc).data =
      some [((("Main").data), mainPairs sc)] := by
  unfold parseIni Sharecart.to_string
  dsimp only
  rw [splitLines_append_cons _ _ (by decide)]
  rw [splitLines_lineKV _ _ _ (by decide) (newline_notin_natToDec _)]
  rw [splitLines_lineKV _ _ _ (by decide) (newline_notin_natToDec _)]
  rw [splitLines_lineKV _ _ _ (by decide) (newline_notin_natToDec _)]
  rw [splitLines_lineKV _ _ _ (by decide) (newline_notin_natToDec _)]
  rw [splitLines_lineKV _ _ _ (by decide) (newline_notin_natToDec _)]
  rw [splitLines_lineKV _ _ _ (by decide) (newline_notin_natToDec _)]
  rw [splitLines_lineKV _ _ _ (by decide) (newline_notin_sanitizeName _)]
  rw [splitLines_lineKV _ _ _ (by decide) (newline_notin_boolTok _)]
  rw [splitLines_lineKV _ _ _ (by decide) (newline_notin_boolTok _)]
  rw [splitLines_lineKV _ _ _ (by decide) (newline_notin_boolTok _)]
  rw [splitLines_lineKV _ _ _ (by decide) (newline_notin_boolTok _)]
  rw [splitLines_lineKV _ _ _ (by decide) (newline_notin_boolTok _)]
  rw [splitLines_lineKV _ _ _ (by decide) (newline_notin_boolTok _)]
  rw [splitLines_lineKV _ _ _ (by decide) (newline_notin_boolTok _)]
  rw [splitLines_lineKV _ _ _ (by decide) (newline_notin_boolTok _)]
  rfl

theorem lowerStr_boolTok (b : Bool) :
    (decide (lowerStr (boolTok b) = ("true").data)) = b := by
  cases b <;> decide

theorem from_str_to_string (sc : Sharecart) :
    Sharecart.from_str (Sharecart.to_string sc) = decodeProps (mainPairs sc) := by
  unfold Sharecart.from_str
  rw [parseIni_to_string]
  rfl

theorem lowerTok (b : Bool) :
    (decide (List.map Char.toLower (boolTok b) = [ 't', 'r', 'u', 'e' ])) = b := by
  cases b <;> decide

/-- C4: for every Record in canonical form (10-bit map coordinates,
16-bit misc values, four misc entries and eight switches, a player name
of at most 1023 UTF-8 bytes containing no U+FFFD, no carriage return
and no line feed), decoding its encoding gives the record back. -/
theorem decode_encode_canonical (r : Sharecart)
    (hx : r.map_x < 1024) (hy : r.map_y < 1024)
    (hmlen : r.misc.length = 4) (hm : ∀ m ∈ r.misc, m < 65536)
    (hslen : r.switch.length = 8)
    (hplen : (strBytes r.player_name).length ≤ 1023)
    (hpc : ∀ c ∈ r.player_name.data, c ≠ replChar ∧ c ≠ '\r' ∧ c ≠ '\n') :
    Sharecart.from_str (Sharecart.to_string r) = r := by
  obtain ⟨x, y, misc, name, sw⟩ := r
  simp only at hx hy hmlen hm hslen hplen hpc
  rcases misc with _ | ⟨m0, _ | ⟨m1, _ | ⟨m2, _ | ⟨m3, _ | ⟨m4, mrest⟩⟩⟩⟩⟩ <;>
    simp only [List.length_cons, List.length_nil] at hmlen <;> try omega
  rcases sw with _ | ⟨s0, _ | ⟨s1, _ | ⟨s2, _ | ⟨s3, _ | ⟨s4, _ | ⟨s5, _ | ⟨s6, _ |
      ⟨s7, _ | ⟨s8, srest⟩⟩⟩⟩⟩⟩⟩⟩⟩ <;>
    simp only [List.length_cons, List.length_nil] at hslen <;> try omega
  rw [from_str_to_string]
  have hm0 : m0 < 65536 := hm m0 (by simp)
  have hm1 : m1 < 65536 := hm m1 (by simp)
  have hm2 : m2 < 65536 := hm m2 (by simp)
  have hm3 : m3 < 65536 := hm m3 (by simp)
  simp only [mainPairs, Nat.mod_eq_of_lt hx, Nat.mod_eq_of_lt hy]
  simp only [decodeProps, List.foldl_cons, List.foldl_nil]
  simp [applyPair, lowerStr]
  refine ⟨?_, ?_, ?_, ?_, ?_⟩
  · rw [parseU16_natToDec x (by omega)]
    simp [Nat.mod_eq_of_lt hx]
  · rw [parseU16_natToDec y (by omega)]
    simp [Nat.mod_eq_of_lt hy]
  · rw [parseU16_natToDec m0 hm0, parseU16_natToDec m1 hm1, parseU16_natToDec m2 hm2,
      parseU16_natToDec m3 hm3]
    rfl
  · rw [sanitizeName_canonical name hplen hpc, decodeName_canonical name (by omega) hpc]
  · simp only [lowerTok]
    rfl
theorem applyPair_map_x (m : Sharecart) (k v : List Char) :
    (applyPair m k v).map_x =
      if lowerStr k = ("mapx").data then (parseU16 v).getD 0 % 1024 else m.map_x := by
  unfold applyPair
  by_cases h1 : lowerStr k = ("mapx").data
  · rw [if_pos h1, if_pos h1]
  · rw [if_neg h1, if_neg h1]
    by_cases h2 : lowerStr k = ("mapy").data
    · rw [if_pos h2]
      try rfl
    · rw [if_neg h2]
      by_cases h3 : lowerStr k = ("misc0").data
      · rw [if_pos h3]
        try rfl
      · rw [if_neg h3]
        by_cases h4 : lowerStr k = ("misc1").data
        · rw [if_pos h4]
          try rfl
        · rw [if_neg h4]
          by_cases h5 : lowerStr k = ("misc2").data
          · rw [if_pos h5]
            try rfl
          · rw [if_neg h5]
            by_cases h6 : lowerStr k = ("misc3").data
            · rw [if_pos h6]
              try rfl
            · rw [if_neg h6]
              by_cases h7 : lowerStr k = ("playername").data
              · rw [if_pos h7]
                try rfl
              · rw [if_neg h7]
                by_cases h8 : lowerStr k = ("switch0").data
                · rw [if_pos h8]
                  try rfl
                · rw [if_neg h8]
                  by_cases h9 : lowerStr k = ("switch1").data
                  · rw [if_pos h9]
                    try rfl
                  · rw [if_neg h9]
                    by_cases h10 : lowerStr k = ("switch2").data
                    · rw [if_pos h10]
                      try rfl
                    · rw [if_neg h10]
                      by_cases h11 : lowerStr k = ("switch3").data
                      · rw [if_pos h11]
                        try rfl
                      · rw [if_neg h11]
                        by_cases h12 : lowerStr k = ("switch4").data
                        · rw [if_pos h12]
                          try rfl
                        · rw [if_neg h12]
                          by_cases h13 : lowerStr k = ("switch5").data
                          · rw [if_pos h13]
                            try rfl
                          · rw [if_neg h13]
                            by_cases h14 : lowerStr k = ("switch6").data
                            · rw [if_pos h14]
                              try rfl
                            · rw [if_neg h14]
                              by_cases h15 : lowerStr k = ("switch7").data
                              · rw [if_pos h15]
                                try rfl
                              · rw [if_neg h15]
                                try rfl

theorem applyPair_map_y (m : Sharecart) (k v : List Char) :
    (applyPair m k v).map_y =
      if lowerStr k = ("mapy").data then (parseU16 v).getD 0 % 1024 else m.map_y := by
  unfold applyPair
  by_cases h1 : lowerStr k = ("mapx").data
  · rw [if_pos h1]
    rw [if_neg (show ¬(lowerStr k = ("mapy").data) from by rw [h1]; decide)]
    try rfl
  · rw [if_neg h1]
    by_cases h2 : lowerStr k = ("mapy").data
    · rw [if_pos h2, if_pos h2]
    · rw [if_neg h2, if_neg h2]
      by_cases h3 : lowerStr k = ("misc0").data
      · rw [if_pos h3]
        try rfl
      · rw [if_neg h3]
        by_cases h4 : lowerStr k = ("misc1").data
        · rw [if_pos h4]
          try rfl
        · rw [if_neg h4]
          by_cases h5 : lowerStr k = ("misc2").data
          · rw [if_pos h5]
            try rfl
          · rw [if_neg h5]
            by_cases h6 : lowerStr k = ("misc3").data
            · rw [if_pos h6]
              try rfl
            · rw [if_neg h6]
              by_cases h7 : lowerStr k = ("playername").data
              · rw [if_pos h7]
                try rfl
              · rw [if_neg h7]
                by_cases h8 : lowerStr k = ("switch0").data
                · rw [if_pos h8]
                  try rfl
                · rw [if_neg h8]
                  by_cases h9 : lowerStr k = ("switch1").data
                  · rw [if_pos h9]
                    try rfl
                  · rw [if_neg h9]
                    by_cases h10 : lowerStr k = ("switch2").data
                    · rw [if_pos h10]
                      try rfl
                    · rw [if_neg h10]
                      by_cases h11 : lowerStr k = ("switch3").data
                      · rw [if_pos h11]
                        try rfl
                      · rw [if_neg h11]
                        by_cases h12 : lowerStr k = ("switch4").data
                        · rw [if_pos h12]
                          try rfl
                        · rw [if_neg h12]
                          by_cases h13 : lowerStr k = ("switch5").data
                          · rw [if_pos h13]
                            try rfl
                          · rw [if_neg h13]
                            by_cases h14 : lowerStr k = ("switch6").data
                            · rw [if_pos h14]
                              try rfl
                            · rw [if_neg h14]
                              by_cases h15 : lowerStr k = ("switch7").data
                              · rw [if_pos h15]
                                try rfl
                              · rw [if_neg h15]
                                try rfl

theorem applyPair_misc (m : Sharecart) (k v : List Char) :
    (applyPair m k v).misc =
      if lowerStr k = ("misc0").data then m.misc.set 0 ((parseU16 v).getD 0)
      else if lowerStr k = ("misc1").data then m.misc.set 1 ((parseU16 v).getD 0)
      else if lowerStr k = ("misc2").data then m.misc.set 2 ((parseU16 v).getD 0)
      else if lowerStr k = ("misc3").data then m.misc.set 3 ((parseU16 v).getD 0)
      else m.misc := by
  unfold applyPair
  by_cases h1 : lowerStr k = ("mapx").data
  · rw [if_pos h1]
    rw [if_neg (show ¬(lowerStr k = ("misc0").data) from by rw [h1]; decide)]
    rw [if_neg (show ¬(lowerStr k = ("misc1").data) from by rw [h1]; decide)]
    rw [if_neg (show ¬(lowerStr k = ("misc2").data) from by rw [h1]; decide)]
    rw [if_neg (show ¬(lowerStr k = ("misc3").data) from by rw [h1]; decide)]
    try rfl
  · rw [if_neg h1]
    by_cases h2 : lowerStr k = ("mapy").data
    · rw [if_pos h2]
      rw [if_neg (show ¬(lowerStr k = ("misc0").data) from by rw [h2]; decide)]
      rw [if_neg (show ¬(lowerStr k = ("misc1").data) from by rw [h2]; decide)]
      rw [if_neg (show ¬(lowerStr k = ("misc2").data) from by rw [h2]; decide)]
      rw [if_neg (show ¬(lowerStr k = ("misc3").data) from by rw [h2]; decide)]
      try rfl
    · rw [if_neg h2]
      by_cases h3 : lowerStr k = ("misc0").data
      · rw [if_pos h3, if_pos h3]
      · rw [if_neg h3, if_neg h3]
        by_cases h4 : lowerStr k = ("misc1").data
        · rw [if_pos h4, if_pos h4]
        · rw [if_neg h4, if_neg h4]
          by_cases h5 : lowerStr k = ("misc2").data
          · rw [if_pos h5, if_pos h5]
          · rw [if_neg h5, if_neg h5]
            by_cases h6 : lowerStr k = ("misc3").data
            · rw [if_pos h6, if_pos h6]
            · rw [if_neg h6, if_neg h6]
              by_cases h7 : lowerStr k = ("playername").data
              · rw [if_pos h7]
                try rfl
              · rw [if_neg h7]
                by_cases h8 : lowerStr k = ("switch0").data
                · rw [if_pos h8]
                  try rfl
                · rw [if_neg h8]
                  by_cases h9 : lowerStr k = ("switch1").data
                  · rw [if_pos h9]
                    try rfl
                  · rw [if_neg h9]
                    by_cases h10 : lowerStr k = ("switch2").data
                    · rw [if_pos h10]
                      try rfl
                    · rw [if_neg h10]
                      by_cases h11 : lowerStr k = ("switch3").data
                      · rw [if_pos h11]
                        try rfl
                      · rw [if_neg h11]
                        by_cases h12 : lowerStr k = ("switch4").data
                        · rw [if_pos h12]
                          try rfl
                        · rw [if_neg h12]
                          by_cases h13 : lowerStr k = ("switch5").data
                          · rw [if_pos h13]
                            try rfl
                          · rw [if_neg h13]
                            by_cases h14 : lowerStr k = ("switch6").data
                            · rw [if_pos h14]
                              try rfl
                            · rw [if_neg h14]
                              by_cases h15 : lowerStr k = ("switch7").data
                              · rw [if_pos h15]
                                try rfl
                              · rw [if_neg h15]
                                try rfl

theorem applyPair_player_name (m : Sharecart) (k v : List Char) :
    (applyPair m k v).player_name =
      if lowerStr k = ("playername").data then decodeName v else m.player_name := by
  unfold applyPair
  by_cases h1 : lowerStr k = ("mapx").data
  · rw [if_pos h1]
    rw [if_neg (show ¬(lowerStr k = ("playername").data) from by rw [h1]; decide)]
    try rfl
  · rw [if_neg h1]
    by_cases h2 : lowerStr k = ("mapy").data
    · rw [if_pos h2]
      rw [if_neg (show ¬(lowerStr k = ("playername").data) from by rw [h2]; decide)]
      try rfl
    · rw [if_neg h2]
      by_cases h3 : lowerStr k = ("misc0").data
      · rw [if_pos h3]
        rw [if_neg (show ¬(lowerStr k = ("playername").data) from by rw [h3]; decide)]
        try rfl
      · rw [if_neg h3]
        by_cases h4 : lowerStr k = ("misc1").data
        · rw [if_pos h4]
          rw [if_neg (show ¬(lowerStr k = ("playername").data) from by rw [h4]; decide)]
          try rfl
        · rw [if_neg h4]
          by_cases h5 : lowerStr k = ("misc2").data
          · rw [if_pos h5]
            rw [if_neg (show ¬(lowerStr k = ("playername").data) from by rw [h5]; decide)]
            try rfl
          · rw [if_neg h5]
            by_cases h6 : lowerStr k = ("misc3").data
            · rw [if_pos h6]
              rw [if_neg (show ¬(lowerStr k = ("playername").data) from by rw [h6]; decide)]
              try rfl
            · rw [if_neg h6]
              by_cases h7 : lowerStr k = ("playername").data
              · rw [if_pos h7, if_pos h7]
              · rw [if_neg h7, if_neg h7]
                by_cases h8 : lowerStr k = ("switch0").data
                · rw [if_pos h8]
                  try rfl
                · rw [if_neg h8]
                  by_cases h9 : lowerStr k = ("switch1").data
                  · rw [if_pos h9]
                    try rfl
                  · rw [if_neg h9]
                    by_cases h10 : lowerStr k = ("switch2").data
                    · rw [if_pos h10]
                      try rfl
                    · rw [if_neg h10]
                      by_cases h11 : lowerStr k = ("switch3").data
                      · rw [if_pos h11]
                        try rfl
                      · rw [if_neg h11]
                        by_cases h12 : lowerStr k = ("switch4").data
                        · rw [if_pos h12]
                          try rfl
                        · rw [if_neg h12]
                          by_cases h13 : lowerStr k = ("switch5").data
                          · rw [if_pos h13]
                            try rfl
                          · rw [if_neg h13]
                            by_cases h14 : lowerStr k = ("switch6").data
                            · rw [if_pos h14]
                              try rfl
                            · rw [if_neg h14]
                              by_cases h15 : lowerStr k = ("switch7").data
                              · rw [if_pos h15]
                                try rfl
                              · rw [if_neg h15]
                                try rfl

theorem applyPair_switch (m : Sharecart) (k v : List Char) :
    (applyPair m k v).switch =
      if lowerStr k = ("switch0").data then m.switch.set 0 (lowerStr v = ("true").data)
      else if lowerStr k = ("switch1").data then m.switch.set 1 (lowerStr v = ("true").data)
      else if lowerStr k = ("switch2").data then m.switch.set 2 (lowerStr v = ("true").data)
      else if lowerStr k = ("switch3").data then m.switch.set 3 (lowerStr v = ("true").data)
      else if lowerStr k = ("switch4").data then m.switch.set 4 (lowerStr v = ("true").data)
      else if lowerStr k = ("switch5").data then m.switch.set 5 (lowerStr v = ("true").data)
      else if lowerStr k = ("switch6").data then m.switch.set 6 (lowerStr v = ("true").data)
      else if lowerStr k = ("switch7").data then m.switch.set 7 (lowerStr v = ("true").data)
      else m.switch := by
  unfold applyPair
  by_cases h1 : lowerStr k = ("mapx").data
  · rw [if_pos h1]
    rw [if_neg (show ¬(lowerStr k = ("switch0").data) from by rw [h1]; decide)]
    rw [if_neg (show ¬(lowerStr k = ("switch1").data) from by rw [h1]; decide)]
    rw [if_neg (show ¬(lowerStr k = ("switch2").data) from by rw [h1]; decide)]
    rw [if_neg (show ¬(lowerStr k = ("switch3").data) from by rw [h1]; decide)]
    rw [if_neg (show ¬(lowerStr k = ("switch4").data) from by rw [h1]; decide)]
    rw [if_neg (show ¬(lowerStr k = ("switch5").data) from by rw [h1]; decide)]
    rw [if_neg (show ¬(lowerStr k = ("switch6").data) from by rw [h1]; decide)]
    rw [if_neg (show ¬(lowerStr k = ("switch7").data) from by rw [h1]; decide)]
    try rfl
  · rw [if_neg h1]
    by_cases h2 : lowerStr k = ("mapy").data
    · rw [if_pos h2]
      rw [if_neg (show ¬(lowerStr k = ("switch0").data) from by rw [h2]; decide)]
      rw [if_neg (show ¬(lowerStr k = ("switch1").data) from by rw [h2]; decide)]
      rw [if_neg (show ¬(lowerStr k = ("switch2").data) from by rw [h2]; decide)]
      rw [if_neg (show ¬(lowerStr k = ("switch3").data) from by rw [h2]; decide)]
      rw [if_neg (show ¬(lowerStr k = ("switch4").data) from by rw [h2]; decide)]
      rw [if_neg (show ¬(lowerStr k = ("switch5").data) from by rw [h2]; decide)]
      rw [if_neg (show ¬(lowerStr k = ("switch6").data) from by rw [h2]; decide)]
      rw [if_neg (show ¬(lowerStr k = ("switch7").data) from by rw [h2]; decide)]
      try rfl
    · rw [if_neg h2]
      by_cases h3 : lowerStr k = ("misc0").data
      · rw [if_pos h3]
        rw [if_neg (show ¬(lowerStr k = ("switch0").data) from by rw [h3]; decide)]
        rw [if_neg (show ¬(lowerStr k = ("switch1").data) from by rw [h3]; decide)]
        rw [if_neg (show ¬(lowerStr k = ("switch2").data) from by rw [h3]; decide)]
        rw [if_neg (show ¬(lowerStr k = ("switch3").data) from by rw [h3]; decide)]
        rw [if_neg (show ¬(lowerStr k = ("switch4").data) from by rw [h3]; decide)]
        rw [if_neg (show ¬(lowerStr k = ("switch5").data) from by rw [h3]; decide)]
        rw [if_neg (show ¬(lowerStr k = ("switch6").data) from by rw [h3]; decide)]
        rw [if_neg (show ¬(lowerStr k = ("switch7").data) from by rw [h3]; decide)]
        try rfl
      · rw [if_neg h3]
        by_cases h4 : lowerStr k = ("misc1").data
        · rw [if_pos h4]
          rw [if_neg (show ¬(lowerStr k = ("switch0").data) from by rw [h4]; decide)]
          rw [if_neg (show ¬(lowerStr k = ("switch1").data) from by rw [h4]; decide)]
          rw [if_neg (show ¬(lowerStr k = ("switch2").data) from by rw [h4]; decide)]
          rw [if_neg (show ¬(lowerStr k = ("switch3").data) from by rw [h4]; decide)]
          rw [if_neg (show ¬(lowerStr k = ("switch4").data) from by rw [h4]; decide)]
          rw [if_neg (show ¬(lowerStr k = ("switch5").data) from by rw [h4]; decide)]
          rw [if_neg (show ¬(lowerStr k = ("switch6").data) from by rw [h4]; decide)]
          rw [if_neg (show ¬(lowerStr k = ("switch7").data) from by rw [h4]; decide)]
          try rfl
        · rw [if_neg h4]
          by_cases h5 : lowerStr k = ("misc2").data
          · rw [if_pos h5]
            rw [if_neg (show ¬(lowerStr k = ("switch0").data) from by rw [h5]; decide)]
            rw [if_neg (show ¬(lowerStr k = ("switch1").data) from by rw [h5]; decide)]
            rw [if_neg (show ¬(lowerStr k = ("switch2").data) from by rw [h5]; decide)]
            rw [if_neg (show ¬(lowerStr k = ("switch3").data) from by rw [h5]; decide)]
            rw [if_neg (show ¬(lowerStr k = ("switch4").data) from by rw [h5]; decide)]
            rw [if_neg (show ¬(lowerStr k = ("switch5").data) from by rw [h5]; decide)]
            rw [if_neg (show ¬(lowerStr k = ("switch6").data) from by rw [h5]; decide)]
            rw [if_neg (show ¬(lowerStr k = ("switch7").data) from by rw [h5]; decide)]
            try rfl
          · rw [if_neg h5]
            by_cases h6 : lowerStr k = ("misc3").data
            · rw [if_pos h6]
              rw [if_neg (show ¬(lowerStr k = ("switch0").data) from by rw [h6]; decide)]
              rw [if_neg (show ¬(lowerStr k = ("switch1").data) from by rw [h6]; decide)]
              rw [if_neg (show ¬(lowerStr k = ("switch2").data) from by rw [h6]; decide)]
              rw [if_neg (show ¬(lowerStr k = ("switch3").data) from by rw [h6]; decide)]
              rw [if_neg (show ¬(lowerStr k = ("switch4").data) from by rw [h6]; decide)]
              rw [if_neg (show ¬(lowerStr k = ("switch5").data) from by rw [h6]; decide)]
              rw [if_neg (show ¬(lowerStr k = ("switch6").data) from by rw [h6]; decide)]
              rw [if_neg (show ¬(lowerStr k = ("switch7").data) from by rw [h6]; decide)]
              try rfl
            · rw [if_neg h6]
              by_cases h7 : lowerStr k = ("playername").data
              · rw [if_pos h7]
                rw [if_neg (show ¬(lowerStr k = ("switch0").data) from by rw [h7]; decide)]
                rw [if_neg (show ¬(lowerStr k = ("switch1").data) from by rw [h7]; decide)]
                rw [if_neg (show ¬(lowerStr k = ("switch2").data) from by rw [h7]; decide)]
                rw [if_neg (show ¬(lowerStr k = ("switch3").data) from by rw [h7]; decide)]
                rw [if_neg (show ¬(lowerStr k = ("switch4").data) from by rw [h7]; decide)]
                rw [if_neg (show ¬(lowerStr k = ("switch5").data) from by rw [h7]; decide)]
                rw [if_neg (show ¬(lowerStr k = ("switch6").data) from by rw [h7]; decide)]
                rw [if_neg (show ¬(lowerStr k = ("switch7").data) from by rw [h7]; decide)]
                try rfl
              · rw [if_neg h7]
                by_cases h8 : lowerStr k = ("switch0").data
                · rw [if_pos h8, if_pos h8]
                · rw [if_neg h8, if_neg h8]
                  by_cases h9 : lowerStr k = ("switch1").data
                  · rw [if_pos h9, if_pos h9]
                  · rw [if_neg h9, if_neg h9]
                    by_cases h10 : lowerStr k = ("switch2").data
                    · rw [if_pos h10, if_pos h10]
                    · rw [if_neg h10, if_neg h10]
                      by_cases h11 : lowerStr k = ("switch3").data
                      · rw [if_pos h11, if_pos h11]
                      · rw [if_neg h11, if_neg h11]
                        by_cases h12 : lowerStr k = ("switch4").data
                        · rw [if_pos h12, if_pos h12]
                        · rw [if_neg h12, if_neg h12]
                          by_cases h13 : lowerStr k = ("switch5").data
                          · rw [if_pos h13, if_pos h13]
                          · rw [if_neg h13, if_neg h13]
                            by_cases h14 : lowerStr k = ("switch6").data
                            · rw [if_pos h14, if_pos h14]
                            · rw [if_neg h14, if_neg h14]
                              by_cases h15 : lowerStr k = ("switch7").data
                              · rw [if_pos h15, if_pos h15]
                              · rw [if_neg h15, if_neg h15]
                                try rfl

theorem zeroAt_mapx (r : Sharecart) : zeroAt (("mapx").data) r = { r with map_x := 0 } := by
  unfold zeroAt
  rw [if_pos rfl]

theorem zeroAt_mapy (r : Sharecart) : zeroAt (("mapy").data) r = { r with map_y := 0 } := by
  unfold zeroAt
  rw [if_neg (by decide), if_pos rfl]

theorem zeroAt_misc0 (r : Sharecart) :
    zeroAt (("misc0").data) r = { r with misc := r.misc.set 0 0 } := by
  unfold zeroAt
  rw [if_neg (by decide), if_neg (by decide), if_pos rfl]

theorem zeroAt_misc1 (r : Sharecart) :
    zeroAt (("misc1").data) r = { r with misc := r.misc.set 1 0 } := by
  unfold zeroAt
  rw [if_neg (by decide), if_neg (by decide), if_neg (by decide), if_pos rfl]

theorem zeroAt_misc2 (r : Sharecart) :
    zeroAt (("misc2").data) r = { r with misc := r.misc.set 2 0 } := by
  unfold zeroAt
  rw [if_neg (by decide), if_neg (by decide), if_neg (by decide), if_neg (by decide),
    if_pos rfl]

theorem zeroAt_misc3 (r : Sharecart) :
    zeroAt (("misc3").data) r = { r with misc := r.misc.set 3 0 } := by
  unfold zeroAt
  rw [if_neg (by decide), if_neg (by decide), if_neg (by decide), if_neg (by decide),
    if_neg (by decide), if_pos rfl]

theorem applyPair_bad (m : Sharecart) (k v : List Char) (hsix : numKey (lowerStr k))
    (hv : parseU16 v = none) : applyPair m k v = zeroAt (lowerStr k) m := by
  unfold applyPair
  rcases hsix with hk | hk | hk | hk | hk | hk <;> rw [hk, hv]
  · rw [zeroAt_mapx, if_pos rfl]
    rfl
  · rw [zeroAt_mapy, if_neg (by decide), if_pos rfl]
    rfl
  · rw [zeroAt_misc0, if_neg (by decide), if_neg (by decide), if_pos rfl]
    rfl
  · rw [zeroAt_misc1, if_neg (by decide), if_neg (by decide), if_neg (by decide), if_pos rfl]
    rfl
  · rw [zeroAt_misc2, if_neg (by decide), if_neg (by decide), if_neg (by decide),
      if_neg (by decide), if_pos rfl]
    rfl
  · rw [zeroAt_misc3, if_neg (by decide), if_neg (by decide), if_neg (by decide),
      if_neg (by decide), if_neg (by decide), if_pos rfl]
    rfl

theorem applyPair_zeroAt_comm (lk : List Char) (hsix : numKey lk) (k v : List Char)
    (m : Sharecart) (hk : lowerStr k ≠ lk) :
    applyPair (zeroAt lk m) k v = zeroAt lk (applyPair m k v) := by
  rcases hsix with h | h | h | h | h | h <;> subst h
  · rw [zeroAt_mapx m, zeroAt_mapx (applyPair m k v)]
    ext : 1
    · rw [applyPair_map_x, if_neg hk]
    · rw [applyPair_map_y, applyPair_map_y]
    · rw [applyPair_misc, applyPair_misc]
    · rw [applyPair_player_name, applyPair_player_name]
    · rw [applyPair_switch, applyPair_switch]
  · rw [zeroAt_mapy m, zeroAt_mapy (applyPair m k v)]
    ext : 1
    · rw [applyPair_map_x, applyPair_map_x]
    · rw [applyPair_map_y, if_neg hk]
    · rw [applyPair_misc, applyPair_misc]
    · rw [applyPair_player_name, applyPair_player_name]
    · rw [applyPair_switch, applyPair_switch]
  · rw [zeroAt_misc0 m, zeroAt_misc0 (applyPair m k v)]
    ext : 1
    · rw [applyPair_map_x, applyPair_map_x]
    · rw [applyPair_map_y, applyPair_map_y]
    · rw [applyPair_misc, applyPair_misc, if_neg hk]
      split_ifs <;> first | rfl | rw [List.set_comm _ _ _ (by omega)]
    · rw [applyPair_player_name, applyPair_player_name]
    · rw [applyPair_switch, applyPair_switch]
  · rw [zeroAt_misc1 m, zeroAt_misc1 (applyPair m k v)]
    ext : 1
    · rw [applyPair_map_x, applyPair_map_x]
    · rw [applyPair_map_y, applyPair_map_y]
    · rw [applyPair_misc, applyPair_misc, if_neg hk]
      split_ifs <;> first | rfl | rw [List.set_comm _ _ _ (by omega)]
    · rw [applyPair_player_name, applyPair_player_name]
    · rw [applyPair_switch, applyPair_switch]
  · rw [zeroAt_misc2 m, zeroAt_misc2 (applyPair m k v)]
    ext : 1
    · rw [applyPair_map_x, applyPair_map_x]
    · rw [applyPair_map_y, applyPair_map_y]
    · rw [applyPair_misc, applyPair_misc, if_neg hk]
      split_ifs <;> first | rfl | rw [List.set_comm _ _ _ (by omega)]
    · rw [applyPair_player_name, applyPair_player_name]
    · rw [applyPair_switch, applyPair_switch]
  · rw [zeroAt_misc3 m, zeroAt_misc3 (applyPair m k v)]
    ext : 1
    · rw [applyPair_map_x, applyPair_map_x]
    · rw [applyPair_map_y, applyPair_map_y]
    · rw [applyPair_misc, applyPair_misc, if_neg hk]
      split_ifs <;> first | rfl | rw [List.set_comm _ _ _ (by omega)]
    · rw [applyPair_player_name, applyPair_player_name]
    · rw [applyPair_switch, applyPair_switch]

theorem foldl_applyPair_zeroAt (lk : List Char) (hsix : numKey lk)
    (props : List (List Char × List Char)) (m : Sharecart)
    (hnot : ∀ p ∈ props, lowerStr p.1 ≠ lk) :
    props.foldl (fun sc p => applyPair sc p.1 p.2) (zeroAt lk m) =
      zeroAt lk (props.foldl (fun sc p => applyPair sc p.1 p.2) m) := by
  induction props generalizing m with
  | nil => rfl
  | cons q qs ih =>
    simp only [List.foldl_cons]
    rw [applyPair_zeroAt_comm lk hsix q.1 q.2 m (hnot q (List.mem_cons_self q qs))]
    exact ih _ (fun p hp => hnot p (List.mem_cons_of_mem q hp))

/-- C8: decoding a Main section in which one of MapX, MapY, Misc0..Misc3
carries an unparseable value yields 0 for exactly that field (`zeroAt`),
and every other field is what it would have been had the bad pair been
absent — a field-level parse failure never aborts the rest of the
decode.  The hypothesis `hnot` excludes a later pair re-targeting the
same field, in which case last-seen-wins would overwrite the 0. -/
theorem decodeProps_bad_field (l₁ l₂ : List (List Char × List Char)) (k v : List Char)
    (hsix : numKey (lowerStr k)) (hv : parseU16 v = none)
    (hnot : ∀ p ∈ l₂, lowerStr p.1 ≠ lowerStr k) :
    decodeProps (l₁ ++ (k, v) :: l₂) = zeroAt (lowerStr k) (decodeProps (l₁ ++ l₂)) := by
  unfold decodeProps
  rw [List.foldl_append, List.foldl_append, List.foldl_cons]
  rw [applyPair_bad _ k v hsix hv]
  exact foldl_applyPair_zeroAt (lowerStr k) hsix l₂ _ hnot

/-- C1 (code bug): the spec and the field's own doc comment say decode
takes the first 1023 bytes of the raw PlayerName value, but the loop in
`Sharecart::from_str` collects `v.bytes().take(1024)`.  On a value of
1024 ASCII bytes the decoded `player_name` keeps all 1024 bytes, while
the specified 1023-byte pipeline (`specDecodeName`) keeps 1023. -/
theorem decode_player_name_takes_1024_bytes :
    (Sharecart.from_str badDoc1024).player_name = String.mk (List.replicate 1024 'a') ∧
    specDecodeName (List.replicate 1024 'a') = List.replicate 1023 'a' := by
  constructor
  · decide
  · decide

/-- C2 (code bug): decode is claimed to establish the Record invariant
that player_name is at most 1023 bytes of UTF-8, but because the code
takes 1024 bytes (see C1) the decoded name of `badDoc1024` is 1024
bytes long.  The `map_x`/`map_y` bound and the character exclusions do
hold; the byte bound is what fails. -/
theorem decode_player_name_exceeds_1023_bytes :
    (strBytes (Sharecart.from_str badDoc1024).player_name).length = 1024 := by decide

/-- C3 counterexample: encode does not drop carriage-return and
line-feed bytes before the 1023-byte truncation.  For a name consisting
of a line feed followed by 1023 `x` bytes, the PlayerName value that
`Sharecart::to_string` emits (by `parseIni_to_string`, the value parsed
back for the PlayerName key is `sanitizeName` of the name) has 1022
characters, while the claimed filter-first pipeline
(`specSanitizeName`) yields 1023. -/
theorem encode_player_name_order_counterexample :
    parseIni (Sharecart.to_string cexCart).data = some [((("Main").data), mainPairs cexCart)] ∧
    (mainPairs cexCart).getD 6 ([], []) =
      ((("PlayerName").data), sanitizeName newlineName1024) ∧
    sanitizeName newlineName1024 = List.replicate 1022 'x' ∧
    specSanitizeName newlineName1024 = List.replicate 1023 'x' ∧
    sanitizeName newlineName1024 ≠ specSanitizeName newlineName1024 := by
  refine ⟨parseIni_to_string cexCart, rfl, ?_, by decide, ?_⟩
  · rw [sanitizeName_eq_filter]
    decide
  · rw [sanitizeName_eq_filter]
    decide

/-- C9: encoding the all-default record produces exactly the fifteen
`Key=Value` lines after the `[Main]` header, in fixed order and casing,
with uppercase FALSE tokens, single line feeds and a trailing line
feed. -/
theorem encode_default_record_text :
    Sharecart.to_string Sharecart.default =
      ("[Main]\nMapX=0\nMapY=0\nMisc0=0\nMisc1=0\nMisc2=0\nMisc3=0\nPlayerName=\nSwitch0=FALSE\nSwitch1=FALSE\nSwitch2=FALSE\nSwitch3=FALSE\nSwitch4=FALSE\nSwitch5=FALSE\nSwitch6=FALSE\nSwitch7=FALSE\n") := by
  decide

/-- C7: decoding the empty string and decoding `[Main]` both give the
all-default record. -/
theorem decode_empty_and_main_default :
    Sharecart.from_str ("") = Sharecart.default ∧
    Sharecart.from_str ("[Main]") = Sharecart.default := by
  exact ⟨by decide, by decide⟩

/-- C3 (amended): encode produces the PlayerName line's value by first
taking the first 1023 bytes of player_name's UTF-8 byte sequence, then
lossily repairing that as UTF-8, and then dropping every replacement
character, carriage return and line feed — truncation happens before
the filtering, not after. -/
theorem encode_player_name_truncate_then_filter (s : String) : sanitizeName s = amendedSanitizeName s := by
  rw [sanitizeName_eq_filter]
  rfl

theorem decode_encode_canonical_witness :
    Sharecart.from_str (Sharecart.to_string exampleCart) = exampleCart :=
  decode_encode_canonical exampleCart (by decide) (by decide) (by decide) (by decide)
    (by decide) (by decide) (by decide)

/-- C5: decoding a document whose Main section maps MapX (resp. MapY) to
the decimal rendering of a 16-bit value x yields `x % 1024` in `map_x`
(resp. `map_y`); a value that fails to parse as a `u16` yields 0 for
that coordinate. -/
theorem decode_map_coords_mod1024 (x : Nat) (hx : x < 65536) :
    (Sharecart.from_str (String.mk (("[Main]\nMapX=").data ++ natToDec x))).map_x = x % 1024 ∧
    (Sharecart.from_str (String.mk (("[Main]\nMapY=").data ++ natToDec x))).map_y = x % 1024 ∧
    (∀ v : List Char, parseU16 v = none →
      (decodeProps [((("MapX").data), v)]).map_x = 0 ∧
      (decodeProps [((("MapY").data), v)]).map_y = 0) := by
  refine ⟨?_, ?_, ?_⟩
  · unfold Sharecart.from_str parseIni
    dsimp only
    rw [show (("[Main]\nMapX=").data ++ natToDec x) =
        ("[Main]").data ++ '\n' :: ((("MapX=").data) ++ natToDec x) from rfl]
    rw [splitLines_append_cons _ _ (by decide),
      splitLines_no_newline _ (by
        intro hm
        rcases List.mem_append.mp hm with h | h
        · exact absurd h (by decide)
        · exact newline_notin_natToDec x h)]
    show (applyPair Sharecart.default (("MapX").data) (natToDec x)).map_x = x % 1024
    rw [applyPair_map_x, if_pos (by decide), parseU16_natToDec x hx]
    rfl
  · unfold Sharecart.from_str parseIni
    dsimp only
    rw [show (("[Main]\nMapY=").data ++ natToDec x) =
        ("[Main]").data ++ '\n' :: ((("MapY=").data) ++ natToDec x) from rfl]
    rw [splitLines_append_cons _ _ (by decide),
      splitLines_no_newline _ (by
        intro hm
        rcases List.mem_append.mp hm with h | h
        · exact absurd h (by decide)
        · exact newline_notin_natToDec x h)]
    show (applyPair Sharecart.default (("MapY").data) (natToDec x)).map_y = x % 1024
    rw [applyPair_map_y, if_pos (by decide), parseU16_natToDec x hx]
    rfl
  · intro v hv
    constructor
    · show (applyPair Sharecart.default (("MapX").data) v).map_x = 0
      rw [applyPair_map_x, if_pos (by decide), hv]
      rfl
    · show (applyPair Sharecart.default (("MapY").data) v).map_y = 0
      rw [applyPair_map_y, if_pos (by decide), hv]
      rfl

theorem decode_map_coords_mod1024_witness :
    (Sharecart.from_str (String.mk (("[Main]\nMapX=").data ++ natToDec 1097))).map_x =
      1097 % 1024 ∧
    (decodeProps [((("MapX").data), ("abc").data)]).map_x = 0 := by
  constructor
  · exact (decode_map_coords_mod1024 1097 (by decide)).1
  · exact ((decode_map_coords_mod1024 1097 (by decide)).2.2 (("abc").data) (by decide)).1


/-- C6: for each switch index i, a SwitchI value decodes to `true`
exactly when its lowercasing equals the literal text `true` (so `True`,
`TRUE`, `true` are true and `1`, `yes`, the empty string are false),
and an absent key leaves the switch `false`. -/
theorem decode_switch_case_insensitive_true (i : Fin 8) (v : List Char) :
    ((decodeProps [(((("Switch").data) ++ [Char.ofNat (48 + i.val)]), v)]).switch.getD i.val false
      = decide (lowerStr v = ("true").data)) ∧
    (decodeProps []).switch.getD i.val false = false := by
  constructor
  swap
  · fin_cases i <;> rfl
  fin_cases i
  · show (applyPair Sharecart.default (("Switch0").data) v).switch.getD 0 false = _
    rw [applyPair_switch, if_pos (by decide)]
    rfl
  · show (applyPair Sharecart.default (("Switch1").data) v).switch.getD 1 false = _
    rw [applyPair_switch, if_neg (by decide), if_pos (by decide)]
    rfl
  · show (applyPair Sharecart.default (("Switch2").data) v).switch.getD 2 false = _
    rw [applyPair_switch, if_neg (by decide), if_neg (by decide), if_pos (by decide)]
    rfl
  · show (applyPair Sharecart.default (("Switch3").data) v).switch.getD 3 false = _
    rw [applyPair_switch, if_neg (by decide), if_neg (by decide), if_neg (by decide), if_pos (by decide)]
    rfl
  · show (applyPair Sharecart.default (("Switch4").data) v).switch.getD 4 false = _
    rw [applyPair_switch, if_neg (by decide), if_neg (by decide), if_neg (by decide), if_neg (by decide), if_pos (by decide)]
    rfl
  · show (applyPair Sharecart.default (("Switch5").data) v).switch.getD 5 false = _
    rw [applyPair_switch, if_neg (by decide), if_neg (by decide), if_neg (by decide), if_neg (by decide), if_neg (by decide), if_pos (by decide)]
    rfl
  · show (applyPair Sharecart.default (("Switch6").data) v).switch.getD 6 false = _
    rw [applyPair_switch, if_neg (by decide), if_neg (by decide), if_neg (by decide), if_neg (by decide), if_neg (by decide), if_neg (by decide), if_pos (by decide)]
    rfl
  · show (applyPair Sharecart.default (("Switch7").data) v).switch.getD 7 false = _
    rw [applyPair_switch, if_neg (by decide), if_neg (by decide), if_neg (by decide), if_neg (by decide), if_neg (by decide), if_neg (by decide), if_neg (by decide), if_pos (by decide)]
    rfl

theorem decodeProps_bad_field_witness :
    decodeProps ([((("MapY").data), (("7").data))] ++ ((("Misc1").data), (("zz").data)) :: []) =
      zeroAt (lowerStr (("Misc1").data)) (decodeProps ([((("MapY").data), (("7").data))] ++ [])) := by
  apply decodeProps_bad_field
  · right
    right
    right
    left
    decide
  · decide
  · intro p hp
    simp at hp

/-- C10: decode lowercases every key before matching it against the
field names, so two keys with the same lowercasing — any casing of the
canonical key names — apply the same field rule. -/
theorem decode_key_lowercase_insensitive (sc : Sharecart) (k₁ k₂ v : List Char) (h : lowerStr k₁ = lowerStr k₂) :
    applyPair sc k₁ v = applyPair sc k₂ v := by
  unfold applyPair
  rw [h]

theorem decode_key_lowercase_insensitive_witness :
    applyPair Sharecart.default (("MAPX").data) (("5").data) =
      applyPair Sharecart.default (("mapx").data) (("5").data) ∧
    applyPair Sharecart.default (("sWiTcH3").data) (("TrUe").data) =
      applyPair Sharecart.default (("Switch3").data) (("TrUe").data) :=
  ⟨decode_key_lowercase_insensitive Sharecart.default (("MAPX").data) (("mapx").data) (("5").data) (by decide),
   decode_key_lowercase_insensitive Sharecart.default (("sWiTcH3").data) (("Switch3").data) (("TrUe").data) (by decide)⟩
